import Mathlib

/-!
Verification of the OldPortal-Launcher native hook engine
(src/OPLauncher.Hook.Native/dllmain.cpp).

The C++ file is embedded shallowly: process memory is a total map from
byte address to byte value, page protections are a map from address to a
protection constant, and the module-level globals
(`g_mutexOriginalBytes`, `g_fileOriginalBytes`, `g_hooksInstalled`,
`g_fileHookTrampoline`, `g_originalOpenDataFile`) are fields of an
explicit state record.  The fallible Win32 calls (`VirtualProtect`,
`VirtualAlloc`) are resolved by an environment record that fixes each
call's outcome.  Every state-changing step also appends an event to a
ghost trace so that ordering properties (which write happened first) are
statable.
-/

namespace OPHook

/-- Observable events of one run: a memcpy into process memory, a
`VirtualProtect` call (with its outcome), the `VirtualAlloc` call, and a
`VirtualFree` call. -/
inductive Event where
  | write : Nat → List Nat → Event
  | protect : Nat → Nat → Nat → Bool → Event
  | alloc : Option Nat → Event
  | free : Nat → Event
deriving DecidableEq

/-- The global state of dllmain.cpp: process memory, page protections,
the five module-level globals, and the ghost event trace. -/
structure HookState where
  mem : Nat → Nat
  prot : Nat → Nat
  mutexOriginalBytes : List Nat
  fileOriginalBytes : List Nat
  hooksInstalled : Bool
  fileHookTrampoline : Option Nat
  originalOpenDataFile : Option Nat
  trace : List Event

/-- The environment resolving the fallible Win32 calls: whether a
`VirtualProtect` call with the given address, size and new protection
succeeds, the address returned by `VirtualAlloc` (`none` = NULL), and
the address of the replacement function `OpenDataFile_Hook`. -/
structure Env where
  protectOk : Nat → Nat → Nat → Bool
  allocResult : Option Nat
  hookFnAddr : Nat

/-- `#define CLIENT_ISALREADYRUNNING_ADDR 0x004122A0` -/
def CLIENT_ISALREADYRUNNING_ADDR : Nat := 0x004122A0

/-- `#define CLBLOCKALLOCATOR_OPENDATAFILE_ADDR 0x00675920` -/
def CLBLOCKALLOCATOR_OPENDATAFILE_ADDR : Nat := 0x00675920

/-- Win32 `PAGE_EXECUTE_READWRITE` protection constant. -/
def PAGE_EXECUTE_READWRITE : Nat := 64

/-- Win32 `DLL_PROCESS_DETACH` reason code. -/
def DLL_PROCESS_DETACH : Nat := 0

/-- Win32 `DLL_PROCESS_ATTACH` reason code. -/
def DLL_PROCESS_ATTACH : Nat := 1

/-- 2^32, the modulus of `DWORD` arithmetic. -/
def UINT32_MOD : Nat := 4294967296

/-- Write the byte list `bs` into memory `m` starting at address `a`
(the model of `memcpy` into process memory). -/
def writeBytes (m : Nat → Nat) (a : Nat) (bs : List Nat) : Nat → Nat :=
  fun x => if a ≤ x ∧ x < a + bs.length then bs.getD (x - a) (m x) else m x

/-- Read `n` bytes of memory `m` starting at address `a`. -/
def readBytes (m : Nat → Nat) (a n : Nat) : List Nat :=
  (List.range n).map fun i => m (a + i)

/-- Set the protection of the `n`-byte region at `a` to `v`. -/
def setProt (p : Nat → Nat) (a n v : Nat) : Nat → Nat :=
  fun x => if a ≤ x ∧ x < a + n then v else p x

/-- Unsigned 32-bit subtraction `a - b`, as C computes it on `DWORD`s. -/
def dwordSub (a b : Nat) : Nat :=
  (a % UINT32_MOD + (UINT32_MOD - b % UINT32_MOD)) % UINT32_MOD

/-- The relative-offset formula used for each 5-byte `JMP rel32` in
`InstallFileHook`:
`relative_offset = destination - (jump_instruction_address + 5)`,
in `DWORD` arithmetic. -/
def relJumpOffset (jumpAddr dest : Nat) : Nat := dwordSub dest (jumpAddr + 5)

/-- The four little-endian bytes of a `DWORD`, as `memcpy(p, &x, 4)`
stores them on x86. -/
def toLE4 (x : Nat) : List Nat :=
  [x % 256, x / 256 % 256, x / 65536 % 256, x / 16777216 % 256]

/-- Model of `VirtualProtect(a, n, v, &oldProtect)`: on success returns
the previous protection of the region and sets the new one; on failure
the state is unchanged.  Either way the call is logged. -/
def virtualProtect (e : Env) (s : HookState) (a n v : Nat) :
    Bool × Nat × HookState :=
  if e.protectOk a n v = true then
    (true, s.prot a,
     { s with prot := setProt s.prot a n v,
              trace := s.trace ++ [Event.protect a n v true] })
  else
    (false, 0, { s with trace := s.trace ++ [Event.protect a n v false] })

/-- A logged `memcpy` of the byte list `bs` to address `a`. -/
def memWrite (s : HookState) (a : Nat) (bs : List Nat) : HookState :=
  { s with mem := writeBytes s.mem a bs,
           trace := s.trace ++ [Event.write a bs] }

/-- The patch bytes of the mutex hook: `xor eax, eax; ret`. -/
def mutexPatchBytes : List Nat := [0x31, 0xC0, 0xC3]

/-- `InstallMutexHook` (dllmain.cpp lines 47-76): make the 16-byte
window at `CLIENT_ISALREADYRUNNING_ADDR` writable, snapshot the 16
original bytes into `g_mutexOriginalBytes`, write the 3 patch bytes,
restore the previous protection. -/
def InstallMutexHook (e : Env) (s : HookState) : Bool × HookState :=
  let hookAddr := CLIENT_ISALREADYRUNNING_ADDR
  let acq := virtualProtect e s hookAddr 16 PAGE_EXECUTE_READWRITE
  if acq.1 = false then (false, acq.2.2)
  else
    let oldProtect := acq.2.1
    let s1 := acq.2.2
    let s2 := { s1 with mutexOriginalBytes := readBytes s1.mem hookAddr 16 }
    let s3 := memWrite s2 hookAddr mutexPatchBytes
    let rst := virtualProtect e s3 hookAddr 16 oldProtect
    (true, rst.2.2)

/-- `InstallFileHook` (dllmain.cpp lines 82-129): allocate a 32-byte
trampoline block, make the 32-byte window at
`CLBLOCKALLOCATOR_OPENDATAFILE_ADDR` writable (freeing the block and
resetting the handle on denial), snapshot the 32 original bytes, copy
the first 5 original bytes into the trampoline, append `E9` plus the
little-endian jump-back offset, publish the trampoline as
`g_originalOpenDataFile`, write the 5-byte diverting jump over the
target, restore the previous protection. -/
def InstallFileHook (e : Env) (s : HookState) : Bool × HookState :=
  let hookAddr := CLBLOCKALLOCATOR_OPENDATAFILE_ADDR
  let s0 := { s with fileHookTrampoline := e.allocResult,
                     trace := s.trace ++ [Event.alloc e.allocResult] }
  match e.allocResult with
  | none => (false, s0)
  | some tramp =>
    let acq := virtualProtect e s0 hookAddr 32 PAGE_EXECUTE_READWRITE
    if acq.1 = false then
      (false, { acq.2.2 with fileHookTrampoline := none,
                             trace := acq.2.2.trace ++ [Event.free tramp] })
    else
      let oldProtect := acq.2.1
      let s1 := acq.2.2
      let s2 := { s1 with fileOriginalBytes := readBytes s1.mem hookAddr 32 }
      let s3 := memWrite s2 tramp (readBytes s2.mem hookAddr 5)
      let trampolineJump := tramp + 5
      let jumpOffset := relJumpOffset trampolineJump (hookAddr + 5)
      let s4 := memWrite s3 trampolineJump [0xE9]
      let s5 := memWrite s4 (trampolineJump + 1) (toLE4 jumpOffset)
      let s6 := { s5 with originalOpenDataFile := some tramp }
      let hookOffset := relJumpOffset hookAddr e.hookFnAddr
      let s7 := memWrite s6 hookAddr (0xE9 :: toLE4 hookOffset)
      let rst := virtualProtect e s7 hookAddr 32 oldProtect
      (true, rst.2.2)

/-- `InstallAllHooks` (dllmain.cpp lines 134-148): mutex hook first,
then file hook; sets `g_hooksInstalled` only when both succeed. -/
def InstallAllHooks (e : Env) (s : HookState) : Bool × HookState :=
  let r1 := InstallMutexHook e s
  if r1.1 = false then (false, r1.2)
  else
    let r2 := InstallFileHook e r1.2
    if r2.1 = false then (false, r2.2)
    else (true, { r2.2 with hooksInstalled := true })

/-- `RemoveAllHooks` (dllmain.cpp lines 153-184): early return when
`g_hooksInstalled` is false; otherwise restore the mutex window, then
the file window (each under its own protect/restore bracket, skipped if
the protect call fails), then free the trampoline and clear the flag. -/
def RemoveAllHooks (e : Env) (s : HookState) : HookState :=
  if s.hooksInstalled = false then s
  else
    let mutexAddr := CLIENT_ISALREADYRUNNING_ADDR
    let acq1 := virtualProtect e s mutexAddr 16 PAGE_EXECUTE_READWRITE
    let s1 :=
      if acq1.1 = true then
        let w := memWrite acq1.2.2 mutexAddr acq1.2.2.mutexOriginalBytes
        (virtualProtect e w mutexAddr 16 acq1.2.1).2.2
      else acq1.2.2
    let fileAddr := CLBLOCKALLOCATOR_OPENDATAFILE_ADDR
    let acq2 := virtualProtect e s1 fileAddr 32 PAGE_EXECUTE_READWRITE
    let s2 :=
      if acq2.1 = true then
        let w := memWrite acq2.2.2 fileAddr acq2.2.2.fileOriginalBytes
        (virtualProtect e w fileAddr 32 acq2.2.1).2.2
      else acq2.2.2
    let s3 :=
      match s2.fileHookTrampoline with
      | some t => { s2 with fileHookTrampoline := none,
                            trace := s2.trace ++ [Event.free t] }
      | none => s2
    { s3 with hooksInstalled := false }

/-- `DllMain` (dllmain.cpp lines 189-205): `DLL_PROCESS_DETACH` runs
`RemoveAllHooks`; every other reason leaves the state alone; always
returns TRUE. -/
def DllMain (e : Env) (s : HookState) (reason : Nat) : Bool × HookState :=
  if reason = DLL_PROCESS_DETACH then (true, RemoveAllHooks e s)
  else (true, s)

/-- `HookStartup` (dllmain.cpp lines 211-219): the sole export; returns
1 when `InstallAllHooks` succeeds and 0 otherwise. -/
def HookStartup (e : Env) (s : HookState) : Int × HookState :=
  let r := InstallAllHooks e s
  if r.1 = true then (1, r.2) else (0, r.2)

/-- Does this event record a memcpy to address `a`? -/
def Event.isWriteTo : Event → Nat → Bool
  | Event.write x _, a => x == a
  | _, _ => false

/-- Index of the first memcpy to address `a` in a trace (the trace
length if there is none). -/
def firstWriteIdx (tr : List Event) (a : Nat) : Nat :=
  tr.findIdx fun ev => ev.isWriteTo a

/-- The first memcpy to `a` in the trace occurs strictly before the
first memcpy to `b`. -/
def revertsBefore (tr : List Event) (a b : Nat) : Prop :=
  firstWriteIdx tr a < firstWriteIdx tr b

instance revertsBeforeDecidable (tr : List Event) (a b : Nat) :
    Decidable (revertsBefore tr a b) :=
  Nat.decLt _ _

/-- A fresh process memory for concrete runs. -/
def memInit : Nat → Nat := fun a => a % 256

/-- The state at DLL load: zeroed snapshot buffers, flag clear, null
trampoline and function pointer, empty trace. -/
def freshState : HookState :=
  { mem := memInit, prot := fun _ => 32,
    mutexOriginalBytes := List.replicate 16 0,
    fileOriginalBytes := List.replicate 32 0,
    hooksInstalled := false, fileHookTrampoline := none,
    originalOpenDataFile := none, trace := [] }

/-- An environment in which every Win32 call succeeds. -/
def envAllOk : Env :=
  { protectOk := fun _ _ _ => true, allocResult := some 65536,
    hookFnAddr := 131072 }

/-- An environment in which `VirtualAlloc` fails and everything else
succeeds, so the second patch of `InstallAllHooks` fails after the
first has been applied. -/
def envAllocFail : Env :=
  { protectOk := fun _ _ _ => true, allocResult := none,
    hookFnAddr := 131072 }

/-- The state produced by a fully successful `InstallAllHooks` run from
state `s` with the trampoline block at `t` (shown equal to the run's
result in `installAllHooks_ok` below): the mutex patch and the diverting
jump written, the trampoline populated, both windows snapshotted, the
protections restored and the flag set. -/
def postInstall (e : Env) (s : HookState) (t : Nat) : HookState :=
  { mem := writeBytes
      (writeBytes
        (writeBytes
          (writeBytes
            (writeBytes s.mem CLIENT_ISALREADYRUNNING_ADDR mutexPatchBytes)
            t (readBytes s.mem CLBLOCKALLOCATOR_OPENDATAFILE_ADDR 5))
          (t + 5) [0xE9])
        (t + 6)
        (toLE4 (relJumpOffset (t + 5)
          (CLBLOCKALLOCATOR_OPENDATAFILE_ADDR + 5))))
      CLBLOCKALLOCATOR_OPENDATAFILE_ADDR
      (0xE9 :: toLE4 (relJumpOffset CLBLOCKALLOCATOR_OPENDATAFILE_ADDR
        e.hookFnAddr)),
    prot := setProt
      (setProt
        (setProt
          (setProt s.prot CLIENT_ISALREADYRUNNING_ADDR 16
            PAGE_EXECUTE_READWRITE)
          CLIENT_ISALREADYRUNNING_ADDR 16
          (s.prot CLIENT_ISALREADYRUNNING_ADDR))
        CLBLOCKALLOCATOR_OPENDATAFILE_ADDR 32 PAGE_EXECUTE_READWRITE)
      CLBLOCKALLOCATOR_OPENDATAFILE_ADDR 32
      (s.prot CLBLOCKALLOCATOR_OPENDATAFILE_ADDR),
    mutexOriginalBytes := readBytes s.mem CLIENT_ISALREADYRUNNING_ADDR 16,
    fileOriginalBytes :=
      readBytes s.mem CLBLOCKALLOCATOR_OPENDATAFILE_ADDR 32,
    hooksInstalled := true,
    fileHookTrampoline := some t,
    originalOpenDataFile := some t,
    trace := s.trace ++
      [Event.protect CLIENT_ISALREADYRUNNING_ADDR 16
         PAGE_EXECUTE_READWRITE true,
       Event.write CLIENT_ISALREADYRUNNING_ADDR mutexPatchBytes,
       Event.protect CLIENT_ISALREADYRUNNING_ADDR 16
         (s.prot CLIENT_ISALREADYRUNNING_ADDR) true,
       Event.alloc (some t),
       Event.protect CLBLOCKALLOCATOR_OPENDATAFILE_ADDR 32
         PAGE_EXECUTE_READWRITE true,
       Event.write t
         (readBytes s.mem CLBLOCKALLOCATOR_OPENDATAFILE_ADDR 5),
       Event.write (t + 5) [0xE9],
       Event.write (t + 6)
         (toLE4 (relJumpOffset (t + 5)
           (CLBLOCKALLOCATOR_OPENDATAFILE_ADDR + 5))),
       Event.write CLBLOCKALLOCATOR_OPENDATAFILE_ADDR
         (0xE9 :: toLE4 (relJumpOffset CLBLOCKALLOCATOR_OPENDATAFILE_ADDR
           e.hookFnAddr)),
       Event.protect CLBLOCKALLOCATOR_OPENDATAFILE_ADDR 32
         (s.prot CLBLOCKALLOCATOR_OPENDATAFILE_ADDR) true] }

/-- An environment in which `VirtualProtect` succeeds only on the mutex
target, so the file hook's protection change is denied after its
trampoline block was allocated. -/
def envFileProtFail : Env :=
  { protectOk := fun a _ _ => decide (a = CLIENT_ISALREADYRUNNING_ADDR),
    allocResult := some 65536, hookFnAddr := 131072 }

/-- An environment in which every `VirtualProtect` call is denied. -/
def envAllProtFail : Env :=
  { protectOk := fun _ _ _ => false, allocResult := some 65536,
    hookFnAddr := 131072 }

/-- The state after a fully successful install, with the ghost trace
cleared so that a following run's trace can be inspected on its own. -/
def installedState : HookState :=
  { (InstallAllHooks envAllOk freshState).2 with trace := [] }

/-- An installed-flag state with uniform protections, for exercising
the uninstall path on its own. -/
def installedUniform : HookState :=
  { freshState with hooksInstalled := true, fileHookTrampoline := some 65536 }

/-! ### Basic lemmas about the memory primitives -/

theorem readBytes_length (m : Nat → Nat) (a n : Nat) :
    (readBytes m a n).length = n := by
  simp [readBytes]

theorem writeBytes_apply_out (m : Nat → Nat) (a : Nat) (bs : List Nat)
    (x : Nat) (h : x < a ∨ a + bs.length ≤ x) :
    writeBytes m a bs x = m x := by
  simp only [writeBytes]
  rw [if_neg (by omega : ¬(a ≤ x ∧ x < a + bs.length))]

theorem writeBytes_apply_in (m : Nat → Nat) (a : Nat) (bs : List Nat)
    (x : Nat) (h1 : a ≤ x) (h2 : x < a + bs.length) :
    writeBytes m a bs x = bs.getD (x - a) (m x) := by
  simp only [writeBytes]
  rw [if_pos ⟨h1, h2⟩]

theorem readBytes_writeBytes_self (m : Nat → Nat) (a : Nat) (bs : List Nat) :
    readBytes (writeBytes m a bs) a bs.length = bs := by
  apply List.ext_getElem
  · simp [readBytes_length]
  · intro i h1 h2
    simp only [readBytes, List.getElem_map, List.getElem_range]
    rw [writeBytes_apply_in m a bs (a + i) (Nat.le_add_right _ _) (by omega)]
    simp [List.getD, List.getElem?_eq_getElem h2]

theorem readBytes_writeBytes_eq_len (m : Nat → Nat) (a n : Nat)
    (bs : List Nat) (h : bs.length = n) :
    readBytes (writeBytes m a bs) a n = bs := by
  subst h; exact readBytes_writeBytes_self m a bs

theorem readBytes_writeBytes_disjoint (m : Nat → Nat) (a b n : Nat)
    (bs : List Nat) (h : b + n ≤ a ∨ a + bs.length ≤ b) :
    readBytes (writeBytes m a bs) b n = readBytes m b n := by
  apply List.ext_getElem
  · simp [readBytes_length]
  · intro i h1 h2
    have hi : i < n := by simpa [readBytes_length] using h1
    simp only [readBytes, List.getElem_map, List.getElem_range]
    exact writeBytes_apply_out m a bs (b + i) (by omega)

theorem setProt_apply_out (p : Nat → Nat) (a n v x : Nat)
    (h : x < a ∨ a + n ≤ x) : setProt p a n v x = p x := by
  simp only [setProt]
  rw [if_neg (by omega : ¬(a ≤ x ∧ x < a + n))]

theorem setProt_apply_in (p : Nat → Nat) (a n v x : Nat)
    (h1 : a ≤ x) (h2 : x < a + n) : setProt p a n v x = v := by
  simp only [setProt]
  rw [if_pos ⟨h1, h2⟩]

/-! ### Characterizations of the individual runs -/

theorem removeAllHooks_noop (e : Env) (s : HookState)
    (h : s.hooksInstalled = false) : RemoveAllHooks e s = s := by
  simp [RemoveAllHooks, h]

theorem installMutexHook_hooksInstalled (e : Env) (s : HookState) :
    ((InstallMutexHook e s).2).hooksInstalled = s.hooksInstalled := by
  by_cases h : e.protectOk CLIENT_ISALREADYRUNNING_ADDR 16 PAGE_EXECUTE_READWRITE = true
  · by_cases h2 : e.protectOk CLIENT_ISALREADYRUNNING_ADDR 16
        (s.prot CLIENT_ISALREADYRUNNING_ADDR) = true
    · simp [InstallMutexHook, virtualProtect, memWrite, h, h2]
    · simp [InstallMutexHook, virtualProtect, memWrite, h, h2]
  · simp [InstallMutexHook, virtualProtect, h]

theorem installFileHook_hooksInstalled (e : Env) (s : HookState) :
    ((InstallFileHook e s).2).hooksInstalled = s.hooksInstalled := by
  rcases ha : e.allocResult with _ | t
  · simp [InstallFileHook, ha]
  · by_cases h : e.protectOk CLBLOCKALLOCATOR_OPENDATAFILE_ADDR 32
        PAGE_EXECUTE_READWRITE = true
    · by_cases h2 : e.protectOk CLBLOCKALLOCATOR_OPENDATAFILE_ADDR 32
          (s.prot CLBLOCKALLOCATOR_OPENDATAFILE_ADDR) = true
      · simp [InstallFileHook, virtualProtect, memWrite, ha, h, h2]
      · simp [InstallFileHook, virtualProtect, memWrite, ha, h, h2]
    · simp [InstallFileHook, virtualProtect, ha, h]

theorem installAllHooks_fail_flag (e : Env) (s : HookState)
    (h : (InstallAllHooks e s).1 = false) :
    ((InstallAllHooks e s).2).hooksInstalled = s.hooksInstalled := by
  by_cases h1 : (InstallMutexHook e s).1 = false
  · simp [InstallAllHooks, h1, installMutexHook_hooksInstalled]
  · by_cases h2 : (InstallFileHook e (InstallMutexHook e s).2).1 = false
    · simp [InstallAllHooks, h1, h2, installFileHook_hooksInstalled,
        installMutexHook_hooksInstalled]
    · exfalso
      rw [InstallAllHooks] at h
      simp [h1, h2] at h

theorem installFileHook_allocFail (e : Env) (s : HookState)
    (ha : e.allocResult = none) :
    InstallFileHook e s =
      (false, { s with fileHookTrampoline := none,
                       trace := s.trace ++ [Event.alloc none] }) := by
  simp [InstallFileHook, ha]

theorem installFileHook_protFail (e : Env) (s : HookState) (t : Nat)
    (ha : e.allocResult = some t)
    (hp : e.protectOk CLBLOCKALLOCATOR_OPENDATAFILE_ADDR 32
      PAGE_EXECUTE_READWRITE = false) :
    InstallFileHook e s =
      (false, { s with fileHookTrampoline := none,
                       trace := s.trace ++
                         [Event.alloc (some t),
                          Event.protect CLBLOCKALLOCATOR_OPENDATAFILE_ADDR 32
                            PAGE_EXECUTE_READWRITE false,
                          Event.free t] }) := by
  simp [InstallFileHook, virtualProtect, ha, hp]

theorem installMutexHook_protFail (e : Env) (s : HookState)
    (hp : e.protectOk CLIENT_ISALREADYRUNNING_ADDR 16
      PAGE_EXECUTE_READWRITE = false) :
    InstallMutexHook e s =
      (false, { s with trace := s.trace ++
        [Event.protect CLIENT_ISALREADYRUNNING_ADDR 16
          PAGE_EXECUTE_READWRITE false] }) := by
  simp [InstallMutexHook, virtualProtect, hp]

theorem installMutexHook_ok (e : Env) (s : HookState)
    (h1 : e.protectOk CLIENT_ISALREADYRUNNING_ADDR 16
      PAGE_EXECUTE_READWRITE = true)
    (h2 : e.protectOk CLIENT_ISALREADYRUNNING_ADDR 16
      (s.prot CLIENT_ISALREADYRUNNING_ADDR) = true) :
    InstallMutexHook e s =
      (true,
       { mem := writeBytes s.mem CLIENT_ISALREADYRUNNING_ADDR mutexPatchBytes,
         prot := setProt
           (setProt s.prot CLIENT_ISALREADYRUNNING_ADDR 16
             PAGE_EXECUTE_READWRITE)
           CLIENT_ISALREADYRUNNING_ADDR 16 (s.prot CLIENT_ISALREADYRUNNING_ADDR),
         mutexOriginalBytes := readBytes s.mem CLIENT_ISALREADYRUNNING_ADDR 16,
         fileOriginalBytes := s.fileOriginalBytes,
         hooksInstalled := s.hooksInstalled,
         fileHookTrampoline := s.fileHookTrampoline,
         originalOpenDataFile := s.originalOpenDataFile,
         trace := s.trace ++
           [Event.protect CLIENT_ISALREADYRUNNING_ADDR 16
              PAGE_EXECUTE_READWRITE true,
            Event.write CLIENT_ISALREADYRUNNING_ADDR mutexPatchBytes,
            Event.protect CLIENT_ISALREADYRUNNING_ADDR 16
              (s.prot CLIENT_ISALREADYRUNNING_ADDR) true] }) := by
  simp [InstallMutexHook, virtualProtect, memWrite, h1, h2]

theorem installFileHook_ok (e : Env) (s : HookState) (t : Nat)
    (ha : e.allocResult = some t)
    (h1 : e.protectOk CLBLOCKALLOCATOR_OPENDATAFILE_ADDR 32
      PAGE_EXECUTE_READWRITE = true)
    (h2 : e.protectOk CLBLOCKALLOCATOR_OPENDATAFILE_ADDR 32
      (s.prot CLBLOCKALLOCATOR_OPENDATAFILE_ADDR) = true) :
    InstallFileHook e s =
      (true,
       { mem := writeBytes
           (writeBytes
             (writeBytes
               (writeBytes s.mem t
                 (readBytes s.mem CLBLOCKALLOCATOR_OPENDATAFILE_ADDR 5))
               (t + 5) [0xE9])
             (t + 6)
             (toLE4 (relJumpOffset (t + 5)
               (CLBLOCKALLOCATOR_OPENDATAFILE_ADDR + 5))))
           CLBLOCKALLOCATOR_OPENDATAFILE_ADDR
           (0xE9 :: toLE4 (relJumpOffset CLBLOCKALLOCATOR_OPENDATAFILE_ADDR
             e.hookFnAddr)),
         prot := setProt
           (setProt s.prot CLBLOCKALLOCATOR_OPENDATAFILE_ADDR 32
             PAGE_EXECUTE_READWRITE)
           CLBLOCKALLOCATOR_OPENDATAFILE_ADDR 32
           (s.prot CLBLOCKALLOCATOR_OPENDATAFILE_ADDR),
         mutexOriginalBytes := s.mutexOriginalBytes,
         fileOriginalBytes :=
           readBytes s.mem CLBLOCKALLOCATOR_OPENDATAFILE_ADDR 32,
         hooksInstalled := s.hooksInstalled,
         fileHookTrampoline := some t,
         originalOpenDataFile := some t,
         trace := s.trace ++
           [Event.alloc (some t),
            Event.protect CLBLOCKALLOCATOR_OPENDATAFILE_ADDR 32
              PAGE_EXECUTE_READWRITE true,
            Event.write t
              (readBytes s.mem CLBLOCKALLOCATOR_OPENDATAFILE_ADDR 5),
            Event.write (t + 5) [0xE9],
            Event.write (t + 6)
              (toLE4 (relJumpOffset (t + 5)
                (CLBLOCKALLOCATOR_OPENDATAFILE_ADDR + 5))),
            Event.write CLBLOCKALLOCATOR_OPENDATAFILE_ADDR
              (0xE9 :: toLE4 (relJumpOffset CLBLOCKALLOCATOR_OPENDATAFILE_ADDR
                e.hookFnAddr)),
            Event.protect CLBLOCKALLOCATOR_OPENDATAFILE_ADDR 32
              (s.prot CLBLOCKALLOCATOR_OPENDATAFILE_ADDR) true] }) := by
  simp [InstallFileHook, virtualProtect, memWrite, ha, h1, h2, Nat.add_assoc]

theorem installFileHook_fst_of_acq (e : Env) (s : HookState) (t : Nat)
    (ha : e.allocResult = some t)
    (hacq : e.protectOk CLBLOCKALLOCATOR_OPENDATAFILE_ADDR 32
      PAGE_EXECUTE_READWRITE = true) :
    (InstallFileHook e s).1 = true := by
  by_cases h2 : e.protectOk CLBLOCKALLOCATOR_OPENDATAFILE_ADDR 32
      (s.prot CLBLOCKALLOCATOR_OPENDATAFILE_ADDR) = true
  · rw [installFileHook_ok e s t ha hacq h2]
  · simp [InstallFileHook, virtualProtect, memWrite, ha, hacq, h2]

theorem installFileHook_bool_cases (e : Env) (s : HookState) :
    (InstallFileHook e s).1 = true ∨ (InstallFileHook e s).1 = false := by
  cases (InstallFileHook e s).1
  · exact Or.inr rfl
  · exact Or.inl rfl

theorem installFileHook_mem_of_fail (e : Env) (s : HookState)
    (h : (InstallFileHook e s).1 = false) :
    (InstallFileHook e s).2.mem = s.mem := by
  rcases ha : e.allocResult with _ | t
  · rw [installFileHook_allocFail e s ha]
  · by_cases hacq : e.protectOk CLBLOCKALLOCATOR_OPENDATAFILE_ADDR 32
        PAGE_EXECUTE_READWRITE = true
    · rw [installFileHook_fst_of_acq e s t ha hacq] at h
      exact absurd h (by simp)
    · have hacq2 : e.protectOk CLBLOCKALLOCATOR_OPENDATAFILE_ADDR 32
          PAGE_EXECUTE_READWRITE = false := by
        revert hacq
        cases e.protectOk CLBLOCKALLOCATOR_OPENDATAFILE_ADDR 32
          PAGE_EXECUTE_READWRITE <;> simp
      rw [installFileHook_protFail e s t ha hacq2]

theorem installFileHook_mutexOrig (e : Env) (s : HookState) :
    (InstallFileHook e s).2.mutexOriginalBytes = s.mutexOriginalBytes := by
  rcases ha : e.allocResult with _ | t
  · rw [installFileHook_allocFail e s ha]
  · by_cases hacq : e.protectOk CLBLOCKALLOCATOR_OPENDATAFILE_ADDR 32
        PAGE_EXECUTE_READWRITE = true
    · by_cases h2 : e.protectOk CLBLOCKALLOCATOR_OPENDATAFILE_ADDR 32
          (s.prot CLBLOCKALLOCATOR_OPENDATAFILE_ADDR) = true
      · rw [installFileHook_ok e s t ha hacq h2]
      · simp [InstallFileHook, virtualProtect, memWrite, ha, hacq, h2]
    · have hacq2 : e.protectOk CLBLOCKALLOCATOR_OPENDATAFILE_ADDR 32
          PAGE_EXECUTE_READWRITE = false := by
        revert hacq
        cases e.protectOk CLBLOCKALLOCATOR_OPENDATAFILE_ADDR 32
          PAGE_EXECUTE_READWRITE <;> simp
      rw [installFileHook_protFail e s t ha hacq2]

theorem installAllHooks_ok (e : Env) (s : HookState) (t : Nat)
    (ha : e.allocResult = some t)
    (h1 : e.protectOk CLIENT_ISALREADYRUNNING_ADDR 16
      PAGE_EXECUTE_READWRITE = true)
    (h2 : e.protectOk CLIENT_ISALREADYRUNNING_ADDR 16
      (s.prot CLIENT_ISALREADYRUNNING_ADDR) = true)
    (h3 : e.protectOk CLBLOCKALLOCATOR_OPENDATAFILE_ADDR 32
      PAGE_EXECUTE_READWRITE = true)
    (h4 : e.protectOk CLBLOCKALLOCATOR_OPENDATAFILE_ADDR 32
      (s.prot CLBLOCKALLOCATOR_OPENDATAFILE_ADDR) = true) :
    InstallAllHooks e s = (true, postInstall e s t) := by
  have hprotF : setProt
      (setProt s.prot CLIENT_ISALREADYRUNNING_ADDR 16 PAGE_EXECUTE_READWRITE)
      CLIENT_ISALREADYRUNNING_ADDR 16 (s.prot CLIENT_ISALREADYRUNNING_ADDR)
      CLBLOCKALLOCATOR_OPENDATAFILE_ADDR =
      s.prot CLBLOCKALLOCATOR_OPENDATAFILE_ADDR := by
    rw [setProt_apply_out _ _ _ _ _ (Or.inr (by decide)),
        setProt_apply_out _ _ _ _ _ (Or.inr (by decide))]
  have hread5 : readBytes
      (writeBytes s.mem CLIENT_ISALREADYRUNNING_ADDR mutexPatchBytes)
      CLBLOCKALLOCATOR_OPENDATAFILE_ADDR 5 =
      readBytes s.mem CLBLOCKALLOCATOR_OPENDATAFILE_ADDR 5 :=
    readBytes_writeBytes_disjoint _ _ _ _ _ (Or.inr (by decide))
  have hread32 : readBytes
      (writeBytes s.mem CLIENT_ISALREADYRUNNING_ADDR mutexPatchBytes)
      CLBLOCKALLOCATOR_OPENDATAFILE_ADDR 32 =
      readBytes s.mem CLBLOCKALLOCATOR_OPENDATAFILE_ADDR 32 :=
    readBytes_writeBytes_disjoint _ _ _ _ _ (Or.inr (by decide))
  rw [InstallAllHooks, installMutexHook_ok e s h1 h2]
  simp only []
  rw [installFileHook_ok e _ t ha h3 (by simpa [hprotF])]
  simp [postInstall, hprotF, hread5, hread32]

theorem removeAllHooks_ok (e : Env) (s : HookState) (t : Nat)
    (hins : s.hooksInstalled = true)
    (htr : s.fileHookTrampoline = some t)
    (h1 : e.protectOk CLIENT_ISALREADYRUNNING_ADDR 16
      PAGE_EXECUTE_READWRITE = true)
    (h2 : e.protectOk CLIENT_ISALREADYRUNNING_ADDR 16
      (s.prot CLIENT_ISALREADYRUNNING_ADDR) = true)
    (h3 : e.protectOk CLBLOCKALLOCATOR_OPENDATAFILE_ADDR 32
      PAGE_EXECUTE_READWRITE = true)
    (h4 : e.protectOk CLBLOCKALLOCATOR_OPENDATAFILE_ADDR 32
      (s.prot CLBLOCKALLOCATOR_OPENDATAFILE_ADDR) = true) :
    RemoveAllHooks e s =
      { mem := writeBytes
          (writeBytes s.mem CLIENT_ISALREADYRUNNING_ADDR s.mutexOriginalBytes)
          CLBLOCKALLOCATOR_OPENDATAFILE_ADDR s.fileOriginalBytes,
        prot := setProt
          (setProt
            (setProt
              (setProt s.prot CLIENT_ISALREADYRUNNING_ADDR 16
                PAGE_EXECUTE_READWRITE)
              CLIENT_ISALREADYRUNNING_ADDR 16
              (s.prot CLIENT_ISALREADYRUNNING_ADDR))
            CLBLOCKALLOCATOR_OPENDATAFILE_ADDR 32 PAGE_EXECUTE_READWRITE)
          CLBLOCKALLOCATOR_OPENDATAFILE_ADDR 32
          (s.prot CLBLOCKALLOCATOR_OPENDATAFILE_ADDR),
        mutexOriginalBytes := s.mutexOriginalBytes,
        fileOriginalBytes := s.fileOriginalBytes,
        hooksInstalled := false,
        fileHookTrampoline := none,
        originalOpenDataFile := s.originalOpenDataFile,
        trace := s.trace ++
          [Event.protect CLIENT_ISALREADYRUNNING_ADDR 16
             PAGE_EXECUTE_READWRITE true,
           Event.write CLIENT_ISALREADYRUNNING_ADDR s.mutexOriginalBytes,
           Event.protect CLIENT_ISALREADYRUNNING_ADDR 16
             (s.prot CLIENT_ISALREADYRUNNING_ADDR) true,
           Event.protect CLBLOCKALLOCATOR_OPENDATAFILE_ADDR 32
             PAGE_EXECUTE_READWRITE true,
           Event.write CLBLOCKALLOCATOR_OPENDATAFILE_ADDR s.fileOriginalBytes,
           Event.protect CLBLOCKALLOCATOR_OPENDATAFILE_ADDR 32
             (s.prot CLBLOCKALLOCATOR_OPENDATAFILE_ADDR) true,
           Event.free t] } := by
  have hprotF : setProt
      (setProt s.prot CLIENT_ISALREADYRUNNING_ADDR 16 PAGE_EXECUTE_READWRITE)
      CLIENT_ISALREADYRUNNING_ADDR 16 (s.prot CLIENT_ISALREADYRUNNING_ADDR)
      CLBLOCKALLOCATOR_OPENDATAFILE_ADDR =
      s.prot CLBLOCKALLOCATOR_OPENDATAFILE_ADDR := by
    rw [setProt_apply_out _ _ _ _ _ (Or.inr (by decide)),
        setProt_apply_out _ _ _ _ _ (Or.inr (by decide))]
  simp [RemoveAllHooks, virtualProtect, memWrite, hins, htr, h1, h2, h3, h4,
    hprotF]

theorem postInstall_prot_mutex (e : Env) (s : HookState) (t : Nat) :
    (postInstall e s t).prot CLIENT_ISALREADYRUNNING_ADDR =
      s.prot CLIENT_ISALREADYRUNNING_ADDR := by
  simp only [postInstall]
  rw [setProt_apply_out _ _ _ _ _ (Or.inl (by decide)),
      setProt_apply_out _ _ _ _ _ (Or.inl (by decide)),
      setProt_apply_in _ _ _ _ _ (by decide) (by decide)]

theorem postInstall_prot_file (e : Env) (s : HookState) (t : Nat) :
    (postInstall e s t).prot CLBLOCKALLOCATOR_OPENDATAFILE_ADDR =
      s.prot CLBLOCKALLOCATOR_OPENDATAFILE_ADDR := by
  simp only [postInstall]
  rw [setProt_apply_in _ _ _ _ _ (by decide) (by decide)]

/-! ### The claims -/

/-- C4: for every jump address `A` and destination `dest`, the offset
computed by the program's relative-offset formula satisfies
`A + 5 + offset = dest` modulo 2^32 (two's-complement `DWORD`
arithmetic, so destinations below `A` are covered); and a successful
`InstallFileHook` stores exactly this formula's little-endian bytes both
in the diverting jump at the target (destination = the replacement
function) and in the trampoline's jump back (instruction address
`t + 5`, destination = original address + 5) — the two offsets being
computed independently at their differing instruction addresses. -/
theorem C4_offset_correct (A dest : Nat) (e : Env) (s : HookState) (t : Nat)
    (ha : e.allocResult = some t)
    (h1 : e.protectOk CLBLOCKALLOCATOR_OPENDATAFILE_ADDR 32
      PAGE_EXECUTE_READWRITE = true)
    (h2 : e.protectOk CLBLOCKALLOCATOR_OPENDATAFILE_ADDR 32
      (s.prot CLBLOCKALLOCATOR_OPENDATAFILE_ADDR) = true)
    (hd : CLBLOCKALLOCATOR_OPENDATAFILE_ADDR + 32 ≤ t ∨
      t + 32 ≤ CLBLOCKALLOCATOR_OPENDATAFILE_ADDR) :
    (A + 5 + relJumpOffset A dest) % UINT32_MOD = dest % UINT32_MOD ∧
    readBytes (InstallFileHook e s).2.mem CLBLOCKALLOCATOR_OPENDATAFILE_ADDR 5
      = 0xE9 :: toLE4 (relJumpOffset CLBLOCKALLOCATOR_OPENDATAFILE_ADDR
          e.hookFnAddr) ∧
    readBytes (InstallFileHook e s).2.mem (t + 6) 4
      = toLE4 (relJumpOffset (t + 5)
          (CLBLOCKALLOCATOR_OPENDATAFILE_ADDR + 5)) := by
  refine ⟨?_, ?_, ?_⟩
  · simp only [relJumpOffset, dwordSub, UINT32_MOD]
    omega
  · rw [installFileHook_ok e s t ha h1 h2]
    exact readBytes_writeBytes_eq_len _ _ _ _ (by simp [toLE4])
  · rw [installFileHook_ok e s t ha h1 h2]
    rw [readBytes_writeBytes_disjoint _ _ _ _ _ (by simp [toLE4]; omega)]
    exact readBytes_writeBytes_eq_len _ _ _ _ (by simp [toLE4])

/-- Witness for C4 at concrete inputs: jump at address 100 to
destination 7 (a destination below the jump), and the all-success
environment with the trampoline block at 65536. -/
theorem C4_offset_correct_witness :
    envAllOk.allocResult = some 65536 ∧
    (100 + 5 + relJumpOffset 100 7) % UINT32_MOD = 7 % UINT32_MOD :=
  ⟨rfl, (C4_offset_correct 100 7 envAllOk freshState 65536 rfl rfl rfl
    (Or.inr (by decide))).1⟩

/-- C9: `HookStartup` (the single export) returns nonzero exactly when
the whole install succeeded; its result is 1 on success and 0 on
failure (one success/failure signal, no other detail), the state it
hands back is exactly the install's state, and overall success is
precisely the conjunction of both patches succeeding. -/
theorem C9_entry_point (e : Env) (s : HookState) :
    ((HookStartup e s).1 ≠ 0 ↔ (InstallAllHooks e s).1 = true) ∧
    (HookStartup e s).1 = (if (InstallAllHooks e s).1 = true then 1 else 0) ∧
    (HookStartup e s).2 = (InstallAllHooks e s).2 ∧
    (InstallAllHooks e s).1 =
      ((InstallMutexHook e s).1 &&
        (InstallFileHook e (InstallMutexHook e s).2).1) := by
  refine ⟨?_, ?_, ?_, ?_⟩
  · by_cases hb : (InstallAllHooks e s).1 = true <;> simp [HookStartup, hb]
  · by_cases hb : (InstallAllHooks e s).1 = true <;> simp [HookStartup, hb]
  · by_cases hb : (InstallAllHooks e s).1 = true <;> simp [HookStartup, hb]
  · by_cases m : (InstallMutexHook e s).1 = false
    · simp [InstallAllHooks, m]
    · have m2 : (InstallMutexHook e s).1 = true := by
        revert m; cases (InstallMutexHook e s).1 <;> simp
      by_cases f : (InstallFileHook e (InstallMutexHook e s).2).1 = false
      · simp [InstallAllHooks, m, f, m2]
      · have f2 : (InstallFileHook e (InstallMutexHook e s).2).1 = true := by
          revert f; cases (InstallFileHook e (InstallMutexHook e s).2).1 <;>
            simp
        simp [InstallAllHooks, m, f, m2, f2]

/-- Witness for C9 at a concrete input (no hypotheses to discharge). -/
theorem C9_entry_point_witness :
    (HookStartup envAllOk freshState).1 ≠ 0 ↔
      (InstallAllHooks envAllOk freshState).1 = true :=
  (C9_entry_point envAllOk freshState).1

/-- C10: when the trampoline block has been allocated but the
protection change on the file-hook target is denied, `InstallFileHook`
returns failure, frees the block and resets the trampoline handle to
NULL, writes no bytes, and leaves memory, protections, the
original-function pointer and all other globals exactly as before the
call. -/
theorem C10_file_install_atomic (e : Env) (s : HookState) (t : Nat)
    (ha : e.allocResult = some t)
    (hp : e.protectOk CLBLOCKALLOCATOR_OPENDATAFILE_ADDR 32
      PAGE_EXECUTE_READWRITE = false) :
    (InstallFileHook e s).1 = false ∧
    (InstallFileHook e s).2.mem = s.mem ∧
    (InstallFileHook e s).2.prot = s.prot ∧
    (InstallFileHook e s).2.fileHookTrampoline = none ∧
    (InstallFileHook e s).2.originalOpenDataFile = s.originalOpenDataFile ∧
    (InstallFileHook e s).2.mutexOriginalBytes = s.mutexOriginalBytes ∧
    (InstallFileHook e s).2.fileOriginalBytes = s.fileOriginalBytes ∧
    (InstallFileHook e s).2.hooksInstalled = s.hooksInstalled := by
  rw [installFileHook_protFail e s t ha hp]
  simp

/-- Witness for C10: the environment that denies protection changes on
the file-hook target after allocating the trampoline block at 65536. -/
theorem C10_file_install_atomic_witness :
    envFileProtFail.allocResult = some 65536 ∧
    envFileProtFail.protectOk CLBLOCKALLOCATOR_OPENDATAFILE_ADDR 32
      PAGE_EXECUTE_READWRITE = false ∧
    (InstallFileHook envFileProtFail freshState).1 = false ∧
    (InstallFileHook envFileProtFail freshState).2.fileHookTrampoline
      = none := by
  refine ⟨rfl, by decide, ?_, ?_⟩
  · exact (C10_file_install_atomic envFileProtFail freshState 65536 rfl
      (by decide)).1
  · exact (C10_file_install_atomic envFileProtFail freshState 65536 rfl
      (by decide)).2.2.2.1

/-- C6: on a fresh registry (installed flag clear), `RemoveAllHooks`
returns with the state — memory included — completely untouched, the
teardown path of `DllMain` likewise returns TRUE with the state
untouched, and the same holds for the teardown run after an
`InstallAllHooks` attempt that failed midway. -/
theorem C6_noop_uninstall (e : Env) (s : HookState)
    (h : s.hooksInstalled = false)
    (h2 : (InstallAllHooks e s).1 = false) :
    RemoveAllHooks e s = s ∧
    DllMain e s DLL_PROCESS_DETACH = (true, s) ∧
    RemoveAllHooks e (InstallAllHooks e s).2 = (InstallAllHooks e s).2 := by
  have h3 : ((InstallAllHooks e s).2).hooksInstalled = false := by
    rw [installAllHooks_fail_flag e s h2, h]
  refine ⟨removeAllHooks_noop e s h, ?_, removeAllHooks_noop _ _ h3⟩
  simp [DllMain, removeAllHooks_noop e s h]

/-- Witness for C6: fresh state and the environment whose trampoline
allocation fails, so the install attempt fails midway. -/
theorem C6_noop_uninstall_witness :
    freshState.hooksInstalled = false ∧
    (InstallAllHooks envAllocFail freshState).1 = false ∧
    RemoveAllHooks envAllocFail freshState = freshState :=
  ⟨rfl, by decide,
    (C6_noop_uninstall envAllocFail freshState rfl (by decide)).1⟩

/-- C2: for both patches and any initial memory contents, a successful
install followed by an uninstall restores each target window
byte-for-byte to the snapshot taken before the install (the snapshots
being exactly the pre-install window contents), and a second uninstall
immediately after is a no-op: it returns the state unchanged — in
particular the trampoline handle is already NULL, so no second free
occurs. -/
theorem C2_roundtrip (e : Env) (s : HookState) (t : Nat)
    (ha : e.allocResult = some t)
    (h1 : e.protectOk CLIENT_ISALREADYRUNNING_ADDR 16
      PAGE_EXECUTE_READWRITE = true)
    (h2 : e.protectOk CLIENT_ISALREADYRUNNING_ADDR 16
      (s.prot CLIENT_ISALREADYRUNNING_ADDR) = true)
    (h3 : e.protectOk CLBLOCKALLOCATOR_OPENDATAFILE_ADDR 32
      PAGE_EXECUTE_READWRITE = true)
    (h4 : e.protectOk CLBLOCKALLOCATOR_OPENDATAFILE_ADDR 32
      (s.prot CLBLOCKALLOCATOR_OPENDATAFILE_ADDR) = true) :
    (InstallAllHooks e s).1 = true ∧
    (InstallAllHooks e s).2.mutexOriginalBytes =
      readBytes s.mem CLIENT_ISALREADYRUNNING_ADDR 16 ∧
    (InstallAllHooks e s).2.fileOriginalBytes =
      readBytes s.mem CLBLOCKALLOCATOR_OPENDATAFILE_ADDR 32 ∧
    readBytes (RemoveAllHooks e (InstallAllHooks e s).2).mem
      CLIENT_ISALREADYRUNNING_ADDR 16 =
      readBytes s.mem CLIENT_ISALREADYRUNNING_ADDR 16 ∧
    readBytes (RemoveAllHooks e (InstallAllHooks e s).2).mem
      CLBLOCKALLOCATOR_OPENDATAFILE_ADDR 32 =
      readBytes s.mem CLBLOCKALLOCATOR_OPENDATAFILE_ADDR 32 ∧
    (RemoveAllHooks e (InstallAllHooks e s).2).fileHookTrampoline = none ∧
    RemoveAllHooks e (RemoveAllHooks e (InstallAllHooks e s).2) =
      RemoveAllHooks e (InstallAllHooks e s).2 := by
  rw [installAllHooks_ok e s t ha h1 h2 h3 h4]
  simp only []
  rw [removeAllHooks_ok e (postInstall e s t) t rfl rfl h1
    (by rw [postInstall_prot_mutex]; exact h2) h3
    (by rw [postInstall_prot_file]; exact h4)]
  refine ⟨trivial, rfl, rfl, ?_, ?_, rfl,
    removeAllHooks_noop _ _ rfl⟩
  · rw [postInstall_prot_mutex, postInstall_prot_file]
    rw [readBytes_writeBytes_disjoint _ _ _ _ _ (Or.inl (by decide))]
    exact readBytes_writeBytes_eq_len _ _ _ _ (by
      show (readBytes s.mem CLIENT_ISALREADYRUNNING_ADDR 16).length = 16
      exact readBytes_length _ _ _)
  · rw [postInstall_prot_mutex, postInstall_prot_file]
    exact readBytes_writeBytes_eq_len _ _ _ _ (by
      show (readBytes s.mem CLBLOCKALLOCATOR_OPENDATAFILE_ADDR 32).length = 32
      exact readBytes_length _ _ _)

/-- Witness for C2: the all-success environment, the fresh state, and
the trampoline block at 65536. -/
theorem C2_roundtrip_witness :
    envAllOk.allocResult = some 65536 ∧
    readBytes (RemoveAllHooks envAllOk
      (InstallAllHooks envAllOk freshState).2).mem
      CLIENT_ISALREADYRUNNING_ADDR 16 =
      readBytes freshState.mem CLIENT_ISALREADYRUNNING_ADDR 16 ∧
    RemoveAllHooks envAllOk (RemoveAllHooks envAllOk
      (InstallAllHooks envAllOk freshState).2) =
      RemoveAllHooks envAllOk (InstallAllHooks envAllOk freshState).2 := by
  refine ⟨rfl, ?_, ?_⟩
  · exact (C2_roundtrip envAllOk freshState 65536 rfl rfl rfl rfl
      rfl).2.2.2.1
  · exact (C2_roundtrip envAllOk freshState 65536 rfl rfl rfl rfl
      rfl).2.2.2.2.2.2

/-- C7: applying the inline short-circuit patch writes exactly the
bytes `31 C0 C3` (`xor eax, eax; ret`) over the target's prologue:
afterwards the window reads as those 3 bytes followed by the untouched
remaining 13 bytes, the 16-byte pre-apply snapshot is retained, and the
revert performed by the uninstall restores the pre-apply window
exactly. -/
theorem C7_short_circuit (e : Env) (s : HookState) (t : Nat)
    (ha : e.allocResult = some t)
    (h1 : e.protectOk CLIENT_ISALREADYRUNNING_ADDR 16
      PAGE_EXECUTE_READWRITE = true)
    (h2 : e.protectOk CLIENT_ISALREADYRUNNING_ADDR 16
      (s.prot CLIENT_ISALREADYRUNNING_ADDR) = true)
    (h3 : e.protectOk CLBLOCKALLOCATOR_OPENDATAFILE_ADDR 32
      PAGE_EXECUTE_READWRITE = true)
    (h4 : e.protectOk CLBLOCKALLOCATOR_OPENDATAFILE_ADDR 32
      (s.prot CLBLOCKALLOCATOR_OPENDATAFILE_ADDR) = true) :
    (InstallMutexHook e s).1 = true ∧
    readBytes (InstallMutexHook e s).2.mem CLIENT_ISALREADYRUNNING_ADDR 3 =
      mutexPatchBytes ∧
    readBytes (InstallMutexHook e s).2.mem
      (CLIENT_ISALREADYRUNNING_ADDR + 3) 13 =
      readBytes s.mem (CLIENT_ISALREADYRUNNING_ADDR + 3) 13 ∧
    (InstallMutexHook e s).2.mutexOriginalBytes =
      readBytes s.mem CLIENT_ISALREADYRUNNING_ADDR 16 ∧
    readBytes (RemoveAllHooks e (InstallAllHooks e s).2).mem
      CLIENT_ISALREADYRUNNING_ADDR 16 =
      readBytes s.mem CLIENT_ISALREADYRUNNING_ADDR 16 := by
  refine ⟨?_, ?_, ?_, ?_, ?_⟩
  · rw [installMutexHook_ok e s h1 h2]
  · rw [installMutexHook_ok e s h1 h2]
    exact readBytes_writeBytes_eq_len _ _ _ _ (by decide)
  · rw [installMutexHook_ok e s h1 h2]
    exact readBytes_writeBytes_disjoint _ _ _ _ _ (Or.inr (by decide))
  · rw [installMutexHook_ok e s h1 h2]
  · rw [installAllHooks_ok e s t ha h1 h2 h3 h4]
    simp only []
    rw [removeAllHooks_ok e (postInstall e s t) t rfl rfl h1
      (by rw [postInstall_prot_mutex]; exact h2) h3
      (by rw [postInstall_prot_file]; exact h4)]
    rw [readBytes_writeBytes_disjoint _ _ _ _ _ (Or.inl (by decide))]
    exact readBytes_writeBytes_eq_len _ _ _ _ (by
      show (readBytes s.mem CLIENT_ISALREADYRUNNING_ADDR 16).length = 16
      exact readBytes_length _ _ _)

/-- Witness for C7: all-success environment and fresh state. -/
theorem C7_short_circuit_witness :
    envAllOk.allocResult = some 65536 ∧
    readBytes (InstallMutexHook envAllOk freshState).2.mem
      CLIENT_ISALREADYRUNNING_ADDR 3 = mutexPatchBytes ∧
    readBytes (RemoveAllHooks envAllOk
      (InstallAllHooks envAllOk freshState).2).mem
      CLIENT_ISALREADYRUNNING_ADDR 16 =
      readBytes freshState.mem CLIENT_ISALREADYRUNNING_ADDR 16 := by
  refine ⟨rfl, ?_, ?_⟩
  · exact (C7_short_circuit envAllOk freshState 65536 rfl rfl rfl rfl
      rfl).2.1
  · exact (C7_short_circuit envAllOk freshState 65536 rfl rfl rfl rfl
      rfl).2.2.2.2

/-- C5: after a successful `InstallFileHook` from a state whose trace is
empty, the trampoline block holds the first 5 bytes of the original
function copied verbatim (reading the pre-call bytes, even though the
target was later overwritten), followed by the unconditional-jump
opcode `E9` and the little-endian offset aimed at
`original_address + 5`; and in the run's event sequence each of the
three trampoline-populating writes occurs strictly before the write of
the diverting jump over the target. -/
theorem C5_trampoline (e : Env) (s : HookState) (t : Nat)
    (ha : e.allocResult = some t)
    (h1 : e.protectOk CLBLOCKALLOCATOR_OPENDATAFILE_ADDR 32
      PAGE_EXECUTE_READWRITE = true)
    (h2 : e.protectOk CLBLOCKALLOCATOR_OPENDATAFILE_ADDR 32
      (s.prot CLBLOCKALLOCATOR_OPENDATAFILE_ADDR) = true)
    (hd : CLBLOCKALLOCATOR_OPENDATAFILE_ADDR + 32 ≤ t ∨
      t + 32 ≤ CLBLOCKALLOCATOR_OPENDATAFILE_ADDR)
    (htr : s.trace = []) :
    (InstallFileHook e s).1 = true ∧
    readBytes (InstallFileHook e s).2.mem t 5 =
      readBytes s.mem CLBLOCKALLOCATOR_OPENDATAFILE_ADDR 5 ∧
    readBytes (InstallFileHook e s).2.mem (t + 5) 1 = [0xE9] ∧
    readBytes (InstallFileHook e s).2.mem (t + 6) 4 =
      toLE4 (relJumpOffset (t + 5)
        (CLBLOCKALLOCATOR_OPENDATAFILE_ADDR + 5)) ∧
    revertsBefore (InstallFileHook e s).2.trace t
      CLBLOCKALLOCATOR_OPENDATAFILE_ADDR ∧
    revertsBefore (InstallFileHook e s).2.trace (t + 5)
      CLBLOCKALLOCATOR_OPENDATAFILE_ADDR ∧
    revertsBefore (InstallFileHook e s).2.trace (t + 6)
      CLBLOCKALLOCATOR_OPENDATAFILE_ADDR := by
  have hb1 : (t == CLBLOCKALLOCATOR_OPENDATAFILE_ADDR) = false := by
    rw [beq_eq_false_iff_ne]; omega
  have hb2 : (t + 5 == CLBLOCKALLOCATOR_OPENDATAFILE_ADDR) = false := by
    rw [beq_eq_false_iff_ne]; omega
  have hb3 : (t + 6 == CLBLOCKALLOCATOR_OPENDATAFILE_ADDR) = false := by
    rw [beq_eq_false_iff_ne]; omega
  have hb4 : (t == t + 5) = false := by
    rw [beq_eq_false_iff_ne]; omega
  have hb5 : (t == t + 6) = false := by
    rw [beq_eq_false_iff_ne]; omega
  have hb6 : (t + 5 == t + 6) = false := by
    rw [beq_eq_false_iff_ne]; omega
  rw [installFileHook_ok e s t ha h1 h2]
  refine ⟨rfl, ?_, ?_, ?_, ?_, ?_, ?_⟩
  · rw [readBytes_writeBytes_disjoint _ _ _ _ _ (by simp [toLE4]; omega),
        readBytes_writeBytes_disjoint _ _ _ _ _ (Or.inl (by omega)),
        readBytes_writeBytes_disjoint _ _ _ _ _ (Or.inl (by omega))]
    exact readBytes_writeBytes_eq_len _ _ _ _ (readBytes_length _ _ _)
  · rw [readBytes_writeBytes_disjoint _ _ _ _ _ (by simp [toLE4]; omega),
        readBytes_writeBytes_disjoint _ _ _ _ _ (Or.inl (by omega))]
    exact readBytes_writeBytes_eq_len _ _ _ _ (by decide)
  · rw [readBytes_writeBytes_disjoint _ _ _ _ _ (by simp [toLE4]; omega)]
    exact readBytes_writeBytes_eq_len _ _ _ _ (by simp [toLE4])
  · simp [revertsBefore, firstWriteIdx, htr, Event.isWriteTo,
      List.findIdx_cons, hb1, hb2, hb3, hb4, hb5, hb6]
  · simp [revertsBefore, firstWriteIdx, htr, Event.isWriteTo,
      List.findIdx_cons, hb1, hb2, hb3, hb4, hb5, hb6]
  · simp [revertsBefore, firstWriteIdx, htr, Event.isWriteTo,
      List.findIdx_cons, hb1, hb2, hb3, hb4, hb5, hb6]

/-- Witness for C5: all-success environment, fresh state, trampoline
block at 65536. -/
theorem C5_trampoline_witness :
    envAllOk.allocResult = some 65536 ∧
    readBytes (InstallFileHook envAllOk freshState).2.mem 65536 5 =
      readBytes freshState.mem CLBLOCKALLOCATOR_OPENDATAFILE_ADDR 5 ∧
    revertsBefore (InstallFileHook envAllOk freshState).2.trace 65536
      CLBLOCKALLOCATOR_OPENDATAFILE_ADDR := by
  refine ⟨rfl, ?_, ?_⟩
  · exact (C5_trampoline envAllOk freshState 65536 rfl rfl rfl
      (Or.inr (by decide)) rfl).2.1
  · exact (C5_trampoline envAllOk freshState 65536 rfl rfl rfl
      (Or.inr (by decide)) rfl).2.2.2.2.1

/-- C1 counterexample: with the environment whose trampoline allocation
fails, patch #2 of `InstallAllHooks` fails after patch #1 was applied
and the installed flag is indeed not set — but the immediately
following `RemoveAllHooks` does NOT revert patch #1: the mutex target
window still differs from its original contents (it still holds the
patch bytes), contradicting the claim's final clause. -/
theorem C1_counterexample :
    (InstallAllHooks envAllocFail freshState).1 = false ∧
    (InstallAllHooks envAllocFail freshState).2.hooksInstalled = false ∧
    readBytes (InstallAllHooks envAllocFail freshState).2.mem
      CLIENT_ISALREADYRUNNING_ADDR 3 = mutexPatchBytes ∧
    ¬ readBytes (RemoveAllHooks envAllocFail
        (InstallAllHooks envAllocFail freshState).2).mem
        CLIENT_ISALREADYRUNNING_ADDR 16 =
      readBytes freshState.mem CLIENT_ISALREADYRUNNING_ADDR 16 := by
  decide

/-- C1 amended: if the second patch fails during `InstallAllHooks`
after the first was applied, the installed-state flag is not set, the
first patch's bytes remain in target memory and its snapshot is
retained in the registry — but an immediately following
`RemoveAllHooks` is a no-op (the flag being clear it returns without
reverting anything), so the first patch is NOT reverted. -/
theorem C1_amended (e : Env) (s : HookState)
    (h1 : e.protectOk CLIENT_ISALREADYRUNNING_ADDR 16
      PAGE_EXECUTE_READWRITE = true)
    (h2 : e.protectOk CLIENT_ISALREADYRUNNING_ADDR 16
      (s.prot CLIENT_ISALREADYRUNNING_ADDR) = true)
    (hflag : s.hooksInstalled = false)
    (hfail : (InstallFileHook e (InstallMutexHook e s).2).1 = false) :
    (InstallAllHooks e s).1 = false ∧
    (InstallAllHooks e s).2.hooksInstalled = false ∧
    (InstallAllHooks e s).2.mutexOriginalBytes =
      readBytes s.mem CLIENT_ISALREADYRUNNING_ADDR 16 ∧
    readBytes (InstallAllHooks e s).2.mem CLIENT_ISALREADYRUNNING_ADDR 3 =
      mutexPatchBytes ∧
    RemoveAllHooks e (InstallAllHooks e s).2 = (InstallAllHooks e s).2 := by
  have hM := installMutexHook_ok e s h1 h2
  have hMfst : (InstallMutexHook e s).1 = true := by rw [hM]
  have hAll : InstallAllHooks e s =
      (false, (InstallFileHook e (InstallMutexHook e s).2).2) := by
    simp [InstallAllHooks, hMfst, hfail]
  have hflag2 : (InstallFileHook e (InstallMutexHook e s).2).2.hooksInstalled
      = false := by
    rw [installFileHook_hooksInstalled, installMutexHook_hooksInstalled,
      hflag]
  refine ⟨by rw [hAll], ?_, ?_, ?_, ?_⟩
  · rw [hAll]
    exact hflag2
  · rw [hAll]
    show (InstallFileHook e (InstallMutexHook e s).2).2.mutexOriginalBytes = _
    rw [installFileHook_mutexOrig, hM]
  · rw [hAll]
    show readBytes (InstallFileHook e (InstallMutexHook e s).2).2.mem _ 3 = _
    rw [installFileHook_mem_of_fail _ _ hfail, hM]
    exact readBytes_writeBytes_eq_len _ _ _ _ (by decide)
  · rw [hAll]
    exact removeAllHooks_noop _ _ hflag2

/-- Witness for the amended C1: fresh state and the environment whose
trampoline allocation fails. -/
theorem C1_amended_witness :
    envAllocFail.protectOk CLIENT_ISALREADYRUNNING_ADDR 16
      PAGE_EXECUTE_READWRITE = true ∧
    (InstallFileHook envAllocFail
      (InstallMutexHook envAllocFail freshState).2).1 = false ∧
    RemoveAllHooks envAllocFail (InstallAllHooks envAllocFail freshState).2 =
      (InstallAllHooks envAllocFail freshState).2 := by
  refine ⟨rfl, by decide, ?_⟩
  exact (C1_amended envAllocFail freshState rfl rfl rfl (by decide)).2.2.2.2

/-- C3 counterexample: at a concrete fully-installed state,
`RemoveAllHooks` restores the mutex window strictly before the file
window — installation order, not the reverse order the claim states
(which would put the file hook's revert first). -/
theorem C3_counterexample :
    ¬ revertsBefore (RemoveAllHooks envAllOk installedState).trace
        CLBLOCKALLOCATOR_OPENDATAFILE_ADDR CLIENT_ISALREADYRUNNING_ADDR ∧
    revertsBefore (RemoveAllHooks envAllOk installedState).trace
        CLIENT_ISALREADYRUNNING_ADDR CLBLOCKALLOCATOR_OPENDATAFILE_ADDR := by
  decide

/-- C3 amended: when the registry is not in the uninstalled state,
`RemoveAllHooks` reverts the installed patches in their installation
order (the mutex hook's window first, then the file hook's window),
restores both windows from their snapshots, frees the trampoline stub
(logging the free and resetting the handle to NULL), and clears the
installed flag. -/
theorem C3_amended (e : Env) (s : HookState) (t : Nat)
    (hins : s.hooksInstalled = true)
    (htr : s.fileHookTrampoline = some t)
    (h1 : e.protectOk CLIENT_ISALREADYRUNNING_ADDR 16
      PAGE_EXECUTE_READWRITE = true)
    (h2 : e.protectOk CLIENT_ISALREADYRUNNING_ADDR 16
      (s.prot CLIENT_ISALREADYRUNNING_ADDR) = true)
    (h3 : e.protectOk CLBLOCKALLOCATOR_OPENDATAFILE_ADDR 32
      PAGE_EXECUTE_READWRITE = true)
    (h4 : e.protectOk CLBLOCKALLOCATOR_OPENDATAFILE_ADDR 32
      (s.prot CLBLOCKALLOCATOR_OPENDATAFILE_ADDR) = true)
    (hl16 : s.mutexOriginalBytes.length = 16)
    (hl32 : s.fileOriginalBytes.length = 32)
    (htrace : s.trace = []) :
    (RemoveAllHooks e s).hooksInstalled = false ∧
    (RemoveAllHooks e s).fileHookTrampoline = none ∧
    readBytes (RemoveAllHooks e s).mem CLIENT_ISALREADYRUNNING_ADDR 16 =
      s.mutexOriginalBytes ∧
    readBytes (RemoveAllHooks e s).mem CLBLOCKALLOCATOR_OPENDATAFILE_ADDR 32 =
      s.fileOriginalBytes ∧
    Event.free t ∈ (RemoveAllHooks e s).trace ∧
    revertsBefore (RemoveAllHooks e s).trace CLIENT_ISALREADYRUNNING_ADDR
      CLBLOCKALLOCATOR_OPENDATAFILE_ADDR := by
  have hc : (CLIENT_ISALREADYRUNNING_ADDR ==
      CLBLOCKALLOCATOR_OPENDATAFILE_ADDR) = false := by decide
  rw [removeAllHooks_ok e s t hins htr h1 h2 h3 h4]
  refine ⟨rfl, rfl, ?_, ?_, ?_, ?_⟩
  · rw [readBytes_writeBytes_disjoint _ _ _ _ _ (Or.inl (by decide))]
    exact readBytes_writeBytes_eq_len _ _ _ _ hl16
  · exact readBytes_writeBytes_eq_len _ _ _ _ hl32
  · simp [htrace]
  · simp [revertsBefore, firstWriteIdx, htrace, Event.isWriteTo,
      List.findIdx_cons, hc]

/-- Witness for the amended C3: all-success environment and the
uniform installed state with the trampoline handle at 65536. -/
theorem C3_amended_witness :
    installedUniform.hooksInstalled = true ∧
    installedUniform.fileHookTrampoline = some 65536 ∧
    (RemoveAllHooks envAllOk installedUniform).hooksInstalled = false ∧
    revertsBefore (RemoveAllHooks envAllOk installedUniform).trace
      CLIENT_ISALREADYRUNNING_ADDR CLBLOCKALLOCATOR_OPENDATAFILE_ADDR := by
  refine ⟨rfl, rfl, ?_, ?_⟩
  · exact (C3_amended envAllOk installedUniform 65536 rfl rfl rfl rfl rfl
      rfl (by decide) (by decide) rfl).1
  · exact (C3_amended envAllOk installedUniform 65536 rfl rfl rfl rfl rfl
      rfl (by decide) (by decide) rfl).2.2.2.2.2

/-- C8: in every install and uninstall operation, whenever the
writable-protection acquisition on a target region succeeds (and the
matching restore call is honored by the OS, the region's previous
protection being uniform), the previous protection is in force again on
that region when the operation returns — there is no exit path between
a successful acquisition and the restore; and a failed acquisition
performs no mutation of memory or protections and aborts only that one
patch's installation (the operation just returns failure).  The five
groups cover: mutex install success, mutex install denial, file install
success, file install denial, and a full uninstall. -/
theorem C8_protection_bracket
    (e1 : Env) (s1 : HookState) (e2 : Env) (s2 : HookState)
    (e3 : Env) (s3 : HookState) (t3 : Nat)
    (e4 : Env) (s4 : HookState) (t4 : Nat)
    (e5 : Env) (s5 : HookState) (t5 : Nat)
    (a1 : e1.protectOk CLIENT_ISALREADYRUNNING_ADDR 16
      PAGE_EXECUTE_READWRITE = true)
    (a2 : e1.protectOk CLIENT_ISALREADYRUNNING_ADDR 16
      (s1.prot CLIENT_ISALREADYRUNNING_ADDR) = true)
    (a3 : ∀ x, CLIENT_ISALREADYRUNNING_ADDR ≤ x →
      x < CLIENT_ISALREADYRUNNING_ADDR + 16 →
      s1.prot x = s1.prot CLIENT_ISALREADYRUNNING_ADDR)
    (b1 : e2.protectOk CLIENT_ISALREADYRUNNING_ADDR 16
      PAGE_EXECUTE_READWRITE = false)
    (c1 : e3.allocResult = some t3)
    (c2 : e3.protectOk CLBLOCKALLOCATOR_OPENDATAFILE_ADDR 32
      PAGE_EXECUTE_READWRITE = true)
    (c3 : e3.protectOk CLBLOCKALLOCATOR_OPENDATAFILE_ADDR 32
      (s3.prot CLBLOCKALLOCATOR_OPENDATAFILE_ADDR) = true)
    (c4 : ∀ x, CLBLOCKALLOCATOR_OPENDATAFILE_ADDR ≤ x →
      x < CLBLOCKALLOCATOR_OPENDATAFILE_ADDR + 32 →
      s3.prot x = s3.prot CLBLOCKALLOCATOR_OPENDATAFILE_ADDR)
    (d1 : e4.allocResult = some t4)
    (d2 : e4.protectOk CLBLOCKALLOCATOR_OPENDATAFILE_ADDR 32
      PAGE_EXECUTE_READWRITE = false)
    (f1 : s5.hooksInstalled = true)
    (f2 : s5.fileHookTrampoline = some t5)
    (f3 : e5.protectOk CLIENT_ISALREADYRUNNING_ADDR 16
      PAGE_EXECUTE_READWRITE = true)
    (f4 : e5.protectOk CLIENT_ISALREADYRUNNING_ADDR 16
      (s5.prot CLIENT_ISALREADYRUNNING_ADDR) = true)
    (f5 : e5.protectOk CLBLOCKALLOCATOR_OPENDATAFILE_ADDR 32
      PAGE_EXECUTE_READWRITE = true)
    (f6 : e5.protectOk CLBLOCKALLOCATOR_OPENDATAFILE_ADDR 32
      (s5.prot CLBLOCKALLOCATOR_OPENDATAFILE_ADDR) = true)
    (f7 : ∀ x, CLIENT_ISALREADYRUNNING_ADDR ≤ x →
      x < CLIENT_ISALREADYRUNNING_ADDR + 16 →
      s5.prot x = s5.prot CLIENT_ISALREADYRUNNING_ADDR)
    (f8 : ∀ x, CLBLOCKALLOCATOR_OPENDATAFILE_ADDR ≤ x →
      x < CLBLOCKALLOCATOR_OPENDATAFILE_ADDR + 32 →
      s5.prot x = s5.prot CLBLOCKALLOCATOR_OPENDATAFILE_ADDR) :
    ((InstallMutexHook e1 s1).1 = true ∧
      (InstallMutexHook e1 s1).2.prot = s1.prot) ∧
    ((InstallMutexHook e2 s2).1 = false ∧
      (InstallMutexHook e2 s2).2.mem = s2.mem ∧
      (InstallMutexHook e2 s2).2.prot = s2.prot) ∧
    ((InstallFileHook e3 s3).1 = true ∧
      (InstallFileHook e3 s3).2.prot = s3.prot) ∧
    ((InstallFileHook e4 s4).1 = false ∧
      (InstallFileHook e4 s4).2.mem = s4.mem ∧
      (InstallFileHook e4 s4).2.prot = s4.prot) ∧
    (RemoveAllHooks e5 s5).prot = s5.prot := by
  refine ⟨⟨?_, ?_⟩, ⟨?_, ?_, ?_⟩, ⟨?_, ?_⟩, ⟨?_, ?_, ?_⟩, ?_⟩
  · rw [installMutexHook_ok e1 s1 a1 a2]
  · rw [installMutexHook_ok e1 s1 a1 a2]
    funext x
    simp only [setProt]
    by_cases hx : CLIENT_ISALREADYRUNNING_ADDR ≤ x ∧
        x < CLIENT_ISALREADYRUNNING_ADDR + 16
    · rw [if_pos hx]
      exact (a3 x hx.1 hx.2).symm
    · rw [if_neg hx, if_neg hx]
  · rw [installMutexHook_protFail e2 s2 b1]
  · rw [installMutexHook_protFail e2 s2 b1]
  · rw [installMutexHook_protFail e2 s2 b1]
  · rw [installFileHook_ok e3 s3 t3 c1 c2 c3]
  · rw [installFileHook_ok e3 s3 t3 c1 c2 c3]
    funext x
    simp only [setProt]
    by_cases hx : CLBLOCKALLOCATOR_OPENDATAFILE_ADDR ≤ x ∧
        x < CLBLOCKALLOCATOR_OPENDATAFILE_ADDR + 32
    · rw [if_pos hx]
      exact (c4 x hx.1 hx.2).symm
    · rw [if_neg hx, if_neg hx]
  · rw [installFileHook_protFail e4 s4 t4 d1 d2]
  · rw [installFileHook_protFail e4 s4 t4 d1 d2]
  · rw [installFileHook_protFail e4 s4 t4 d1 d2]
  · rw [removeAllHooks_ok e5 s5 t5 f1 f2 f3 f4 f5 f6]
    funext x
    simp only [setProt]
    by_cases hF : CLBLOCKALLOCATOR_OPENDATAFILE_ADDR ≤ x ∧
        x < CLBLOCKALLOCATOR_OPENDATAFILE_ADDR + 32
    · rw [if_pos hF]
      exact (f8 x hF.1 hF.2).symm
    · rw [if_neg hF, if_neg hF]
      by_cases hA : CLIENT_ISALREADYRUNNING_ADDR ≤ x ∧
          x < CLIENT_ISALREADYRUNNING_ADDR + 16
      · rw [if_pos hA]
        exact (f7 x hA.1 hA.2).symm
      · rw [if_neg hA, if_neg hA]

/-- Witness for C8: the five groups instantiated at the all-success
environment, the all-denied environment, the file-denied environment,
the fresh state and the uniform installed state. -/
theorem C8_protection_bracket_witness :
    envAllOk.protectOk CLIENT_ISALREADYRUNNING_ADDR 16
      PAGE_EXECUTE_READWRITE = true ∧
    envAllProtFail.protectOk CLIENT_ISALREADYRUNNING_ADDR 16
      PAGE_EXECUTE_READWRITE = false ∧
    envFileProtFail.protectOk CLBLOCKALLOCATOR_OPENDATAFILE_ADDR 32
      PAGE_EXECUTE_READWRITE = false ∧
    installedUniform.hooksInstalled = true ∧
    (RemoveAllHooks envAllOk installedUniform).prot =
      installedUniform.prot := by
  refine ⟨rfl, rfl, by decide, rfl, ?_⟩
  exact (C8_protection_bracket envAllOk freshState envAllProtFail freshState
    envAllOk freshState 65536 envFileProtFail freshState 65536
    envAllOk installedUniform 65536
    rfl rfl (fun x h1 h2 => rfl) rfl rfl rfl rfl (fun x h1 h2 => rfl)
    rfl (by decide) rfl rfl rfl rfl rfl rfl
    (fun x h1 h2 => rfl) (fun x h1 h2 => rfl)).2.2.2.2

end OPHook
